import Mathlib

/-!
Shallow embedding of `bioscrape/pid_interfaces.py`.

The source file defines a parent class `PIDInterface` (prior evaluation:
`check_prior`, `uniform_prior`, `gaussian_prior`) and two subclasses
`StochasticInference` and `DeterministicInference`, each with a
`get_likelihood_function` method that orchestrates prior checking, data
packaging, likelihood-object construction and likelihood evaluation.

Python floats are modelled by `PyVal` (a real number, the two infinities, or
NaN) with IEEE-style addition `pyAdd`.  Python exceptions are modelled by
`Except PyError`.  Python dicts keyed by parameter name are modelled as
association lists (the spec guarantees unique keys); `dict[k]` is
`List.lookup` with a `KeyError` on `none`.  The external collaborators from
`bioscrape.inference` (`StochasticTrajectories`, `BulkData`, the two
likelihood classes and their `set_init_params` / `py_log_likelihood`
methods) are not part of this file's source; they are taken as opaque engine
parameters, except where a claim depends on their behaviour, in which case a
definition explicitly modelled from the spec is used.
-/

/-- A Python float value: finite real, +inf, -inf, or NaN. -/
inductive PyVal where
  | fin (x : ℝ)
  | pinf
  | ninf
  | nan

/-- IEEE-style addition on Python float values: NaN is absorbing, opposite
infinities give NaN, an infinity absorbs finite values. -/
def pyAdd : PyVal → PyVal → PyVal
  | .nan, _ => .nan
  | _, .nan => .nan
  | .pinf, .ninf => .nan
  | .ninf, .pinf => .nan
  | .pinf, _ => .pinf
  | _, .pinf => .pinf
  | .ninf, _ => .ninf
  | _, .ninf => .ninf
  | .fin a, .fin b => .fin (a + b)

/-- `np.isfinite`: true exactly on finite values. -/
def PyVal.isfinite : PyVal → Bool
  | .fin _ => true
  | _ => false

/-- Python exceptions raised (or, for `dataShapeError`, modelled from the
spec for the out-of-source likelihood constructors). -/
inductive PyError where
  | valueError (msg : String)
  | keyError (key : String)
  | typeError
  | dataShapeError
deriving DecidableEq

/-- One prior-dictionary entry `[prior_type, num, num, ...]`: the leading
type tag followed by the numeric distribution parameters.  The Python entry
is a list whose element 0 is the tag, so its `len` is `1 + args.length`. -/
structure PriorEntry where
  tag : String
  args : List ℝ

/-- The prior dictionary: parameter name to entry, unique keys. -/
abbrev PriorDict := List (String × PriorEntry)

/-- The state of the external bioscrape Model object referenced by `self.M`:
its named-parameter binding.  The Python object is shared by reference and
outlives the interface; it is threaded through the embedding explicitly. -/
abbrev ModelState := List (String × ℝ)

/-- The configuration stored on a `PIDInterface` instance at construction
(`self.params_to_estimate` and `self.prior`; `self.M` is the reference to
the external model, whose state is threaded separately as `ModelState`).
`prior` is `none` when the Python attribute is `None`. -/
structure PIDInterface where
  params_to_estimate : List String
  prior : Option PriorDict

/-- `PIDInterface.uniform_prior(self, param_name, param_value)`:
looks up `self.prior[param_name]`, requires the entry to have length 3
(tag plus two bounds), and returns `np.inf` when the value is outside
`[lower_bound, upper_bound]`, else `0.0`. -/
noncomputable def PIDInterface.uniform_prior (self : PIDInterface)
    (param_name : String) (param_value : ℝ) : Except PyError PyVal :=
  match self.prior with
  | none => .error (.valueError "No prior found")
  | some prior_dict =>
    match prior_dict.lookup param_name with
    | none => .error (.keyError param_name)
    | some entry =>
      if 1 + entry.args.length ≠ 3 then
        .error (.valueError "For uniform distribution, the prior dictionary entry must be : [prior_type, lower_bound, upper_bound]")
      else
        let lower_bound := entry.args.getD 0 0
        let upper_bound := entry.args.getD 1 0
        if param_value > upper_bound ∨ param_value < lower_bound then
          .ok .pinf
        else
          .ok (.fin 0)

/-- `PIDInterface.gaussian_prior(self, param_name, param_value)`:
looks up `self.prior[param_name]`, requires the entry to have length 4
(tag, mean, std_dev, probability_threshold), computes
`prob = 1/(sqrt(2*pi)*sigma) * exp((-0.5*param_value - mu)**2 / sigma**2)`
exactly as the source does (note the exponent's sign and the
`-0.5*param_value - mu` grouping), and returns `np.inf` when
`prob < prob_threshold`, else `0.0`.  The source's `warnings.warn` when
`prob > 1` does not alter control flow and is not modelled. -/
noncomputable def PIDInterface.gaussian_prior (self : PIDInterface)
    (param_name : String) (param_value : ℝ) : Except PyError PyVal :=
  match self.prior with
  | none => .error (.valueError "No prior found")
  | some prior_dict =>
    match prior_dict.lookup param_name with
    | none => .error (.keyError param_name)
    | some entry =>
      if 1 + entry.args.length ≠ 4 then
        .error (.valueError "For Gaussian distribution, the dictionary entry must be : [prior_type, mean, std_dev, probability_threshold]")
      else
        let mu := entry.args.getD 0 0
        let sigma := entry.args.getD 1 0
        let prob_threshold := entry.args.getD 2 0
        let prob := 1 / (Real.sqrt (2 * Real.pi) * sigma) *
          Real.exp ((-0.5 * param_value - mu) ^ 2 / sigma ^ 2)
        if prob < prob_threshold then
          .ok .pinf
        else
          .ok (.fin 0)

/-- The body of one iteration of `check_prior`'s loop: dispatch on
`self.prior[key][0]` to the matching evaluator (accessing `self.prior[key]`
raises `TypeError` when the prior is `None` and `KeyError` when the key is
absent), raising `ValueError` on an unrecognized tag. -/
noncomputable def PIDInterface.prior_contrib (self : PIDInterface)
    (key : String) (value : ℝ) : Except PyError PyVal :=
  match self.prior with
  | none => .error .typeError
  | some prior_dict =>
    match prior_dict.lookup key with
    | none => .error (.keyError key)
    | some entry =>
      if entry.tag = "uniform" then
        self.uniform_prior key value
      else if entry.tag = "gaussian" then
        self.gaussian_prior key value
      else
        .error (.valueError "Prior type undefined.")

/-- The loop of `check_prior`: `lp` is the running float sum, each item of
`params_dict` contributes through the tag dispatch of `prior_contrib`. -/
noncomputable def PIDInterface.check_prior_loop (self : PIDInterface) :
    List (String × ℝ) → PyVal → Except PyError PyVal
  | [], lp => .ok lp
  | (key, value) :: rest, lp =>
    match self.prior_contrib key value with
    | .error e => .error e
    | .ok c => self.check_prior_loop rest (pyAdd lp c)

/-- `PIDInterface.check_prior(self, params_dict)`: starts from `lp = 0.0`
and accumulates the per-parameter contributions over the dict items. -/
noncomputable def PIDInterface.check_prior (self : PIDInterface)
    (params_dict : List (String × ℝ)) : Except PyError PyVal :=
  self.check_prior_loop params_dict (.fin 0)

/-- Modelled from the spec: `set_init_params` of the likelihood objects lives
in `bioscrape.inference`, outside this file.  Per the spec it binds the named
parameters onto the Model, the sole external mutation performed by a scoring
call; new bindings shadow existing entries of the model parameter map. -/
def set_init_params (model : ModelState) (params_dict : List (String × ℝ)) :
    ModelState :=
  params_dict ++ model

/-- Externally observable steps of a `get_likelihood_function` call, in the
order they happen: packaging the data container (`StochasticTrajectories` /
`BulkData`), constructing the likelihood object (`STLL` / `DLL`), binding the
parameters (`set_init_params`), and invoking `py_log_likelihood`. -/
inductive Event where
  | packagedData
  | constructedLL
  | setParams
  | invokedLL
deriving DecidableEq

/-- The outcome of a `get_likelihood_function` call: the Python return value
(`none` models the implicit `None` return) or raised exception, the ordered
list of external steps that ran, the final Model state, and the interface
configuration after the call (the source never assigns to `self`, so the
embedding returns it as left by the method body). -/
structure GLFOut where
  result : Except PyError (Option PyVal)
  events : List Event
  model : ModelState
  iface : PIDInterface

/-- The external stochastic likelihood machinery from `bioscrape.inference`,
opaque to this file: `package` is the `StochasticTrajectories` constructor
(timepoints, data, measurements, N), `construct` is the
`StochasticTrajectoriesLikelihood` constructor (model, init_state, data,
N_simulations, norm_order) which may raise, return a falsy object (`none`)
or a usable object (`some`), and `log_lik` is `py_log_likelihood` evaluated
against the model state left by `set_init_params`. -/
structure StochEngine (D L : Type) where
  package : List ℝ → List (List ℝ) → List String → Nat → D
  construct : ModelState → List (List ℝ) → D → Nat → Nat → Except PyError (Option L)
  log_lik : L → ModelState → PyVal

/-- The external deterministic likelihood machinery from
`bioscrape.inference`: `package` is the `BulkData` constructor and
`construct` the `DeterministicLikelihood` constructor (no `N_simulations`). -/
structure DetEngine (D L : Type) where
  package : List ℝ → List (List ℝ) → List String → Nat → D
  construct : ModelState → List (List ℝ) → D → Nat → Except PyError (Option L)
  log_lik : L → ModelState → PyVal

/-- `StochasticInference.get_likelihood_function(self, params_values, data,
timepoints, measurements, initial_conditions, norm_order, N_simulations)`:
builds `params_dict` by zipping `params_to_estimate` with `params_values`
(Python `zip` truncates to the shorter sequence), evaluates the prior,
returns `-np.inf` when the total is not finite, else packages the data,
constructs the likelihood object, and under `if LL_stoch:` binds the
parameters and returns `lp + LL_stoch.py_log_likelihood()`; when the
constructed object is falsy the function falls through and returns `None`.
The `debug` prints are pure output and are not modelled. -/
noncomputable def StochasticInference.get_likelihood_function {D L : Type}
    (self : PIDInterface) (eng : StochEngine D L) (model : ModelState)
    (params_values : List ℝ) (data : List (List ℝ)) (timepoints : List ℝ)
    (measurements : List String) (initial_conditions : List (List ℝ))
    (norm_order : Nat) (N_simulations : Nat) : GLFOut :=
  let params_dict := self.params_to_estimate.zip params_values
  match self.check_prior params_dict with
  | .error e => ⟨.error e, [], model, self⟩
  | .ok lp =>
    if lp.isfinite = false then
      ⟨.ok (some .ninf), [], model, self⟩
    else
      let N := data.length
      let dataStoch := eng.package timepoints data measurements N
      match eng.construct model initial_conditions dataStoch N_simulations norm_order with
      | .error e => ⟨.error e, [.packagedData], model, self⟩
      | .ok none => ⟨.ok none, [.packagedData, .constructedLL], model, self⟩
      | .ok (some ll) =>
        let model2 := set_init_params model params_dict
        let cost := eng.log_lik ll model2
        ⟨.ok (some (pyAdd lp cost)),
         [.packagedData, .constructedLL, .setParams, .invokedLL], model2, self⟩

/-- `DeterministicInference.get_likelihood_function(self, params_values,
data, timepoints, measurements, initial_conditions, norm_order)`: same
structure as the stochastic variant with `BulkData` and
`DeterministicLikelihood`; `lp` is initialised to `0` and immediately
overwritten by `check_prior`, falsy `LL_det` falls through to `None`. -/
noncomputable def DeterministicInference.get_likelihood_function {D L : Type}
    (self : PIDInterface) (eng : DetEngine D L) (model : ModelState)
    (params_values : List ℝ) (data : List (List ℝ)) (timepoints : List ℝ)
    (measurements : List String) (initial_conditions : List (List ℝ))
    (norm_order : Nat) : GLFOut :=
  let params_dict := self.params_to_estimate.zip params_values
  match self.check_prior params_dict with
  | .error e => ⟨.error e, [], model, self⟩
  | .ok lp =>
    if lp.isfinite = false then
      ⟨.ok (some .ninf), [], model, self⟩
    else
      let N := data.length
      let dataDet := eng.package timepoints data measurements N
      match eng.construct model initial_conditions dataDet norm_order with
      | .error e => ⟨.error e, [.packagedData], model, self⟩
      | .ok none => ⟨.ok none, [.packagedData, .constructedLL], model, self⟩
      | .ok (some ll) =>
        let model2 := set_init_params model params_dict
        let cost := eng.log_lik ll model2
        ⟨.ok (some (pyAdd lp cost)),
         [.packagedData, .constructedLL, .setParams, .invokedLL], model2, self⟩

/-- Modelled from the spec: the `StochasticTrajectoriesLikelihood`
constructor lives in `bioscrape.inference`, outside this file.  Per the spec
the number of supplied initial conditions must be 1 or N, the trajectory
count carried by the packaged data; a mismatch is a hard `DataShapeError`.
The packaged-data carrier is the trajectory count N itself and the
likelihood object is a token whose `py_log_likelihood` value is the given
`llcost` function of the bound model state. -/
def stochEngineSpec (llcost : ModelState → PyVal) : StochEngine Nat Unit where
  package := fun _ _ _ N => N
  construct := fun _ initial_conditions dataN _ _ =>
    if initial_conditions.length = 1 ∨ initial_conditions.length = dataN then
      .ok (some ())
    else
      .error .dataShapeError
  log_lik := fun _ m => llcost m

/-- Modelled from the spec: the `DeterministicLikelihood` constructor lives
in `bioscrape.inference`, outside this file; same initial-conditions
validation as `stochEngineSpec`, without `N_simulations`. -/
def detEngineSpec (llcost : ModelState → PyVal) : DetEngine Nat Unit where
  package := fun _ _ _ N => N
  construct := fun _ initial_conditions dataN _ =>
    if initial_conditions.length = 1 ∨ initial_conditions.length = dataN then
      .ok (some ())
    else
      .error .dataShapeError
  log_lik := fun _ m => llcost m

@[simp] lemma pyAdd_fin_fin (x y : ℝ) : pyAdd (.fin x) (.fin y) = .fin (x + y) := rfl

@[simp] lemma pyAdd_fin_pinf (x : ℝ) : pyAdd (.fin x) .pinf = .pinf := rfl

@[simp] lemma pyAdd_fin_ninf (x : ℝ) : pyAdd (.fin x) .ninf = .ninf := rfl

@[simp] lemma pyAdd_fin_nan (x : ℝ) : pyAdd (.fin x) .nan = .nan := rfl

@[simp] lemma pyAdd_pinf_fin (x : ℝ) : pyAdd .pinf (.fin x) = .pinf := rfl

@[simp] lemma pyAdd_pinf_pinf : pyAdd .pinf .pinf = .pinf := rfl

/-- The two-parameter prior dictionary of the spec's worked example:
unit-interval uniform priors on `k1` and `k2`. -/
def uniPrior01 : PriorDict := [("k1", ⟨"uniform", [0, 1]⟩), ("k2", ⟨"uniform", [0, 1]⟩)]

/-- An interface estimating `k1, k2` under `uniPrior01`. -/
def ifaceU : PIDInterface := ⟨["k1", "k2"], some uniPrior01⟩

/-- C2 counterexample: at value `2` with uniform bounds `[0, 1]` the source's
`uniform_prior` returns `np.inf` (positive infinity), not the claimed
negative infinity. -/
theorem C2_uniform_out_of_range_cx :
    PIDInterface.uniform_prior ifaceU "k1" 2 = .ok .pinf ∧
    PIDInterface.uniform_prior ifaceU "k1" 2 ≠ .ok .ninf := by
  have h : PIDInterface.uniform_prior ifaceU "k1" 2 = .ok .pinf := by
    simp [PIDInterface.uniform_prior, ifaceU, uniPrior01, List.lookup]
  exact ⟨h, by rw [h]; simp⟩

/-- C2 (amended): for a well-formed uniform prior entry, `uniform_prior`
returns `0.0` when `lower ≤ value ≤ upper` (both boundaries inclusive) and
`np.inf` (positive infinity, the source's rejection sentinel, not negative
infinity) when the value is strictly outside the bounds. -/
theorem C2_uniform_prior_values (self : PIDInterface) (d : PriorDict)
    (name : String) (value lower upper : ℝ)
    (hp : self.prior = some d)
    (hl : d.lookup name = some ⟨"uniform", [lower, upper]⟩) :
    (lower ≤ value → value ≤ upper →
      self.uniform_prior name value = .ok (.fin 0)) ∧
    ((value < lower ∨ upper < value) →
      self.uniform_prior name value = .ok .pinf) := by
  have hmain : self.uniform_prior name value =
      if upper < value ∨ value < lower then .ok .pinf else .ok (.fin 0) := by
    simp [PIDInterface.uniform_prior, hp, hl]
  constructor
  · intro h1 h2
    rw [hmain, if_neg (by push_neg; exact ⟨h2, h1⟩)]
  · intro h
    rw [hmain, if_pos (by rcases h with h | h; exacts [Or.inr h, Or.inl h])]

/-- Witness for C2 (amended): an interior value is accepted with `0.0` and an
exterior value rejected with `np.inf` on the concrete example prior. -/
theorem C2_uniform_prior_values_witness :
    PIDInterface.uniform_prior ifaceU "k1" 0.5 = .ok (.fin 0) ∧
    PIDInterface.uniform_prior ifaceU "k2" 2 = .ok .pinf := by
  constructor
  · exact (C2_uniform_prior_values ifaceU uniPrior01 "k1" 0.5 0 1 rfl
      (by simp [uniPrior01, List.lookup])).1 (by norm_num) (by norm_num)
  · exact (C2_uniform_prior_values ifaceU uniPrior01 "k2" 2 0 1 rfl
      (by simp [uniPrior01, List.lookup])).2 (by norm_num)

/-- Folding `pyAdd` over contributions drawn from the built-in evaluators
(each `0.0` or `np.inf`) starting at `np.inf` stays `np.inf`. -/
lemma foldl_pyAdd_pinf_start (cs : List PyVal)
    (hcs : ∀ c ∈ cs, c = .fin 0 ∨ c = .pinf) :
    cs.foldl pyAdd .pinf = .pinf := by
  induction cs with
  | nil => rfl
  | cons c rest ih =>
    rcases hcs c (by simp) with h | h <;> subst h <;>
      simpa using ih (fun c hc => hcs c (by simp [hc]))

/-- Folding `pyAdd` over contributions from the built-in evaluators starting
at a finite value gives `np.inf` as soon as one contribution is `np.inf`. -/
lemma foldl_pyAdd_pinf_mem (cs : List PyVal)
    (hcs : ∀ c ∈ cs, c = .fin 0 ∨ c = .pinf) :
    ∀ x : ℝ, .pinf ∈ cs → cs.foldl pyAdd (.fin x) = .pinf := by
  induction cs with
  | nil => simp
  | cons c rest ih =>
    intro x hmem
    rcases hcs c (by simp) with h | h <;> subst h
    · have hrest : PyVal.pinf ∈ rest := by simpa using hmem
      simpa using ih (fun c hc => hcs c (by simp [hc])) (x + 0) hrest
    · simpa using foldl_pyAdd_pinf_start rest (fun c hc => hcs c (by simp [hc]))

/-- The `check_prior` loop computes exactly the `pyAdd` fold of the
individual dispatch results over the dict items. -/
lemma check_prior_loop_fold (self : PIDInterface) (ps : List (String × ℝ))
    (cs : List PyVal)
    (h : List.Forall₂ (fun kv c => self.prior_contrib kv.1 kv.2 = .ok c) ps cs) :
    ∀ lp, self.check_prior_loop ps lp = .ok (cs.foldl pyAdd lp) := by
  induction h with
  | nil => intro lp; rfl
  | @cons kv c ps' cs' hc _ ih =>
    intro lp
    obtain ⟨k, v⟩ := kv
    rw [PIDInterface.check_prior_loop, hc]
    exact ih (pyAdd lp c)

/-- C8 (amended): `check_prior` returns exactly the running sum of the
per-parameter contributions produced by the tag dispatch; with the built-in
evaluators every contribution is `0.0` or `np.inf` (never negative
infinity), so one `np.inf` contribution makes the total `np.inf`; and the
empty mapping yields `0.0`. -/
theorem C8_check_prior_sum (self : PIDInterface) (ps : List (String × ℝ))
    (cs : List PyVal)
    (h : List.Forall₂ (fun kv c => self.prior_contrib kv.1 kv.2 = .ok c) ps cs) :
    self.check_prior ps = .ok (cs.foldl pyAdd (.fin 0)) ∧
    ((∀ c ∈ cs, c = .fin 0 ∨ c = .pinf) → .pinf ∈ cs →
      self.check_prior ps = .ok .pinf) ∧
    self.check_prior [] = .ok (.fin 0) := by
  refine ⟨check_prior_loop_fold self ps cs h (.fin 0), ?_, rfl⟩
  intro hvals hmem
  rw [PIDInterface.check_prior, check_prior_loop_fold self ps cs h (.fin 0),
    foldl_pyAdd_pinf_mem cs hvals 0 hmem]

/-- C8 counterexample: on the inadmissible mapping `k1 = 0.5, k2 = 2` under
`uniPrior01`, the rejected parameter contributes `np.inf` and the total is
`np.inf`, not the negative infinity the claim states. -/
theorem C8_check_prior_pinf_cx :
    PIDInterface.prior_contrib ifaceU "k2" 2 = .ok .pinf ∧
    PIDInterface.check_prior ifaceU [("k1", 0.5), ("k2", 2)] = .ok .pinf ∧
    PIDInterface.check_prior ifaceU [("k1", 0.5), ("k2", 2)] ≠ .ok .ninf := by
  have h1 : PIDInterface.prior_contrib ifaceU "k2" 2 = .ok .pinf := by
    simp [PIDInterface.prior_contrib, PIDInterface.uniform_prior, ifaceU,
      uniPrior01, List.lookup]
  have h2 : PIDInterface.check_prior ifaceU [("k1", 0.5), ("k2", 2)] = .ok .pinf := by
    simp [PIDInterface.check_prior, PIDInterface.check_prior_loop,
      PIDInterface.prior_contrib, PIDInterface.uniform_prior, ifaceU,
      uniPrior01, List.lookup]
    norm_num
  exact ⟨h1, h2, by rw [h2]; simp⟩

/-- Witness for C8 (amended): on the concrete mapping `k1 = 0.5, k2 = 2`
the contributions are `0.0` and `np.inf` and the total is their sum,
`np.inf`; the empty mapping totals `0.0`. -/
theorem C8_check_prior_sum_witness :
    PIDInterface.check_prior ifaceU [("k1", 0.5), ("k2", 2)] =
      .ok ([PyVal.fin 0, PyVal.pinf].foldl pyAdd (.fin 0)) ∧
    PIDInterface.check_prior ifaceU [("k1", 0.5), ("k2", 2)] = .ok .pinf ∧
    PIDInterface.check_prior ifaceU [] = .ok (.fin 0) := by
  have hc1 : PIDInterface.prior_contrib ifaceU "k1" 0.5 = .ok (.fin 0) := by
    simp [PIDInterface.prior_contrib, PIDInterface.uniform_prior, ifaceU,
      uniPrior01, List.lookup]
    norm_num
  have hc2 : PIDInterface.prior_contrib ifaceU "k2" 2 = .ok .pinf := by
    simp [PIDInterface.prior_contrib, PIDInterface.uniform_prior, ifaceU,
      uniPrior01, List.lookup]
  have h := C8_check_prior_sum ifaceU [("k1", 0.5), ("k2", 2)]
    [PyVal.fin 0, PyVal.pinf]
    (List.Forall₂.cons hc1 (List.Forall₂.cons hc2 List.Forall₂.nil))
  exact ⟨h.1, h.2.1 (by intro c hc; simpa using hc) (by simp), h.2.2⟩

/-- The per-parameter dispatch consults the prior dictionary only at its own
key: two dictionaries agreeing there give the same contribution. -/
lemma prior_contrib_congr (pte1 pte2 : List String) (d1 d2 : PriorDict)
    (k : String) (v : ℝ) (h : d1.lookup k = d2.lookup k) :
    PIDInterface.prior_contrib ⟨pte1, some d1⟩ k v =
      PIDInterface.prior_contrib ⟨pte2, some d2⟩ k v := by
  unfold PIDInterface.prior_contrib PIDInterface.uniform_prior
    PIDInterface.gaussian_prior
  dsimp only
  rw [h]

/-- The `check_prior` loop consults the prior dictionary only at the keys of
the remaining dict items. -/
lemma check_prior_loop_congr (pte1 pte2 : List String) (d1 d2 : PriorDict)
    (ps : List (String × ℝ))
    (h : ∀ kv ∈ ps, d1.lookup kv.1 = d2.lookup kv.1) :
    ∀ lp, PIDInterface.check_prior_loop ⟨pte1, some d1⟩ ps lp =
      PIDInterface.check_prior_loop ⟨pte2, some d2⟩ ps lp := by
  induction ps with
  | nil => intro lp; rfl
  | cons kv rest ih =>
    intro lp
    obtain ⟨k, v⟩ := kv
    rw [PIDInterface.check_prior_loop, PIDInterface.check_prior_loop,
      prior_contrib_congr pte1 pte2 d1 d2 k v (h (k, v) (by simp))]
    cases hc : PIDInterface.prior_contrib ⟨pte2, some d2⟩ k v with
    | error e => rfl
    | ok c => exact ih (fun kv hkv => h kv (by simp [hkv])) (pyAdd lp c)

/-- C10: the result of `check_prior` depends only on the prior entries of the
names appearing in the mapping: two prior dictionaries that agree on every
such name (and any two estimation lists) give identical results, so extra
prior entries for parameters not under estimation never affect the score. -/
theorem C10_check_prior_depends_only_on_used_entries
    (pte1 pte2 : List String) (d1 d2 : PriorDict) (ps : List (String × ℝ))
    (h : ∀ kv ∈ ps, d1.lookup kv.1 = d2.lookup kv.1) :
    PIDInterface.check_prior ⟨pte1, some d1⟩ ps =
      PIDInterface.check_prior ⟨pte2, some d2⟩ ps :=
  check_prior_loop_congr pte1 pte2 d1 d2 ps h (.fin 0)

/-- Witness for C10: adding an unused `k3` entry to the prior dictionary
leaves `check_prior` unchanged on a mapping over `k1, k2`. -/
theorem C10_check_prior_depends_only_on_used_entries_witness :
    PIDInterface.check_prior
        ⟨["k1", "k2"], some (uniPrior01 ++ [("k3", ⟨"gaussian", [0, 1, 1]⟩)])⟩
        [("k1", 0.5), ("k2", 2)] =
      PIDInterface.check_prior ⟨["k1", "k2"], some uniPrior01⟩
        [("k1", 0.5), ("k2", 2)] := by
  refine C10_check_prior_depends_only_on_used_entries ["k1", "k2"] ["k1", "k2"]
    _ _ _ ?_
  intro kv hkv
  simp only [List.mem_cons, List.mem_singleton, List.not_mem_nil, or_false] at hkv
  rcases hkv with rfl | rfl <;> simp [uniPrior01, List.lookup]

/-- A single-parameter Gaussian prior with mean 0, std_dev 1 and probability
threshold 1. -/
def gaussPrior : PriorDict := [("k1", ⟨"gaussian", [0, 1, 1]⟩)]

/-- An interface estimating `k1` under `gaussPrior`. -/
def ifaceG : PIDInterface := ⟨["k1"], some gaussPrior⟩

/-- The standard Gaussian probability density the claim (and the spec's
contract for `gaussian_log_prior`) describes:
`exp(-0.5*((value-mean)/std_dev)^2) / (std_dev*sqrt(2*pi))`. -/
noncomputable def gaussianDensitySpec (value mean std_dev : ℝ) : ℝ :=
  Real.exp (-0.5 * ((value - mean) / std_dev) ^ 2) / (std_dev * Real.sqrt (2 * Real.pi))

/-- C3: the source's Gaussian evaluator does not compute the standard
Gaussian density.  At value 2, mean 0, std_dev 1, threshold 1 the source
computes `prob = exp((-0.5*2 - 0)^2/1^2)/(sqrt(2*pi)*1) = e/sqrt(2*pi) > 1`
(its own warning condition, so the source's quantity is not a probability
density here) and accepts with `0.0`, while the standard density at that
point, `exp(-2)/sqrt(2*pi)`, lies strictly below the threshold 1, so the
evaluator the claim describes would reject. -/
theorem C3_gaussian_density_bug :
    PIDInterface.gaussian_prior ifaceG "k1" 2 = .ok (.fin 0) ∧
    1 < 1 / (Real.sqrt (2 * Real.pi) * 1) *
      Real.exp ((-0.5 * 2 - 0) ^ 2 / 1 ^ 2) ∧
    gaussianDensitySpec 2 0 1 < 1 := by
  have hexp1 : Real.sqrt (2 * Real.pi) < Real.exp 1 := by
    rw [Real.sqrt_lt' (Real.exp_pos 1)]
    nlinarith [Real.pi_lt_d2, Real.exp_one_gt_d9]
  have hpos : (0:ℝ) < Real.sqrt (2 * Real.pi) :=
    Real.sqrt_pos.mpr (by positivity)
  refine ⟨?_, ?_, ?_⟩
  · simp [PIDInterface.gaussian_prior, ifaceG, gaussPrior, List.lookup]
    rw [show ((0.5:ℝ) * 2) ^ 2 = 1 by norm_num]
    have h2 : Real.sqrt Real.pi * Real.sqrt 2 < Real.exp 1 := by
      calc Real.sqrt Real.pi * Real.sqrt 2
          = Real.sqrt (2 * Real.pi) := by
            rw [← Real.sqrt_mul (by positivity) 2, mul_comm]
        _ < Real.exp 1 := hexp1
    have h3 : (1:ℝ) < Real.exp 1 / (Real.sqrt Real.pi * Real.sqrt 2) :=
      (one_lt_div (by positivity)).mpr h2
    calc (1:ℝ) ≤ Real.exp 1 / (Real.sqrt Real.pi * Real.sqrt 2) := le_of_lt h3
      _ = (Real.sqrt Real.pi)⁻¹ * (Real.sqrt 2)⁻¹ * Real.exp 1 := by ring
  · rw [show ((-0.5 * 2 - 0 : ℝ)) ^ 2 / 1 ^ 2 = 1 by norm_num, mul_one]
    calc (1:ℝ) < Real.exp 1 / Real.sqrt (2 * Real.pi) :=
        (one_lt_div hpos).mpr hexp1
      _ = 1 / Real.sqrt (2 * Real.pi) * Real.exp 1 := by ring
  · have hexp : Real.exp (-0.5 * (((2:ℝ) - 0) / 1) ^ 2) < 1 := by
      rw [Real.exp_lt_one_iff]
      norm_num
    have hsq : (1:ℝ) < Real.sqrt (2 * Real.pi) := by
      rw [show (1:ℝ) = Real.sqrt 1 by simp]
      exact Real.sqrt_lt_sqrt (by norm_num) (by nlinarith [Real.pi_gt_three])
    unfold gaussianDensitySpec
    rw [one_mul, div_lt_one hpos]
    calc Real.exp (-0.5 * (((2:ℝ) - 0) / 1) ^ 2) < 1 := hexp
      _ < Real.sqrt (2 * Real.pi) := hsq

/-- A concrete stochastic engine (spec-modelled constructors) whose
likelihood always evaluates to `-3.2`. -/
def exStochEngine : StochEngine Nat Unit := stochEngineSpec (fun _ => .fin (-3.2))

/-- A concrete deterministic engine (spec-modelled constructors) whose
likelihood always evaluates to `-3.2`. -/
def exDetEngine : DetEngine Nat Unit := detEngineSpec (fun _ => .fin (-3.2))

/-- C1: on either variant, when `check_prior` returns a non-finite total the
call returns `-inf` immediately and nothing external runs: no data
packaging, no likelihood-object construction, no parameter binding, no
likelihood invocation (the event list is empty), the model is untouched —
for every possible engine. -/
theorem C1_prior_rejection_short_circuit {D L D2 L2 : Type}
    (self : PIDInterface) (engS : StochEngine D L) (engD : DetEngine D2 L2)
    (model : ModelState) (params_values : List ℝ) (data : List (List ℝ))
    (timepoints : List ℝ) (measurements : List String)
    (initial_conditions : List (List ℝ)) (norm_order N_simulations : Nat)
    (lp : PyVal)
    (hlp : self.check_prior (self.params_to_estimate.zip params_values) = .ok lp)
    (hfin : lp.isfinite = false) :
    StochasticInference.get_likelihood_function self engS model params_values
        data timepoints measurements initial_conditions norm_order N_simulations =
      ⟨.ok (some .ninf), [], model, self⟩ ∧
    DeterministicInference.get_likelihood_function self engD model params_values
        data timepoints measurements initial_conditions norm_order =
      ⟨.ok (some .ninf), [], model, self⟩ := by
  constructor <;>
    simp [StochasticInference.get_likelihood_function,
      DeterministicInference.get_likelihood_function, hlp, hfin]

/-- Witness for C1: under `uniPrior01` the proposal `k1 = 0.5, k2 = 2` is
rejected by the prior (`lp = np.inf`) and both variants return `-inf` with
an empty event list. -/
theorem C1_prior_rejection_short_circuit_witness :
    PIDInterface.check_prior ifaceU
        (ifaceU.params_to_estimate.zip [0.5, 2]) = .ok .pinf ∧
    StochasticInference.get_likelihood_function ifaceU exStochEngine []
        [0.5, 2] [[1]] [0] ["X"] [[1]] 2 3 =
      ⟨.ok (some .ninf), [], [], ifaceU⟩ ∧
    DeterministicInference.get_likelihood_function ifaceU exDetEngine []
        [0.5, 2] [[1]] [0] ["X"] [[1]] 2 =
      ⟨.ok (some .ninf), [], [], ifaceU⟩ := by
  have hlp : PIDInterface.check_prior ifaceU
      (ifaceU.params_to_estimate.zip [0.5, 2]) = .ok .pinf := by
    simp [PIDInterface.check_prior, PIDInterface.check_prior_loop,
      PIDInterface.prior_contrib, PIDInterface.uniform_prior, ifaceU,
      uniPrior01, List.lookup]
    norm_num
  have h := C1_prior_rejection_short_circuit ifaceU exStochEngine exDetEngine
    [] [0.5, 2] [[1]] [0] ["X"] [[1]] 2 3 .pinf hlp rfl
  exact ⟨hlp, h.1, h.2⟩

/-- C7 (spec-modelled): with the likelihood constructors of
`bioscrape.inference` modelled from the spec, whenever the prior is
admissible and the number of supplied initial conditions is neither 1 nor N
(the leading dimension of `data`), both variants fail with `DataShapeError`
during likelihood-object construction: no parameter binding and no
likelihood evaluation ever happen (the event list stops at data
packaging). -/
theorem C7_ic_count_mismatch_data_shape_error
    (llS llD : ModelState → PyVal) (self : PIDInterface) (model : ModelState)
    (params_values : List ℝ) (data : List (List ℝ)) (timepoints : List ℝ)
    (measurements : List String) (initial_conditions : List (List ℝ))
    (norm_order N_simulations : Nat) (lp : PyVal)
    (hlp : self.check_prior (self.params_to_estimate.zip params_values) = .ok lp)
    (hfin : lp.isfinite = true)
    (h1 : initial_conditions.length ≠ 1)
    (hN : initial_conditions.length ≠ data.length) :
    StochasticInference.get_likelihood_function self (stochEngineSpec llS)
        model params_values data timepoints measurements initial_conditions
        norm_order N_simulations =
      ⟨.error .dataShapeError, [.packagedData], model, self⟩ ∧
    DeterministicInference.get_likelihood_function self (detEngineSpec llD)
        model params_values data timepoints measurements initial_conditions
        norm_order =
      ⟨.error .dataShapeError, [.packagedData], model, self⟩ := by
  constructor <;>
    simp [StochasticInference.get_likelihood_function,
      DeterministicInference.get_likelihood_function, stochEngineSpec,
      detEngineSpec, hlp, hfin, h1, hN]

/-- Witness for C7: 5 observed trajectories with 3 initial conditions and an
admissible proposal fail with `DataShapeError` on both variants. -/
theorem C7_ic_count_mismatch_data_shape_error_witness :
    StochasticInference.get_likelihood_function ifaceU exStochEngine []
        [0.5, 0.5] [[1], [2], [3], [4], [5]] [0] ["X"] [[1], [2], [3]] 2 3 =
      ⟨.error .dataShapeError, [.packagedData], [], ifaceU⟩ ∧
    DeterministicInference.get_likelihood_function ifaceU exDetEngine []
        [0.5, 0.5] [[1], [2], [3], [4], [5]] [0] ["X"] [[1], [2], [3]] 2 =
      ⟨.error .dataShapeError, [.packagedData], [], ifaceU⟩ := by
  have hlp : PIDInterface.check_prior ifaceU
      (ifaceU.params_to_estimate.zip [0.5, 0.5]) = .ok (.fin (0 + 0 + 0)) := by
    simp [PIDInterface.check_prior, PIDInterface.check_prior_loop,
      PIDInterface.prior_contrib, PIDInterface.uniform_prior, ifaceU,
      uniPrior01, List.lookup]
    norm_num
  exact C7_ic_count_mismatch_data_shape_error (fun _ => .fin (-3.2))
    (fun _ => .fin (-3.2)) ifaceU [] [0.5, 0.5] [[1], [2], [3], [4], [5]]
    [0] ["X"] [[1], [2], [3]] 2 3 (.fin (0 + 0 + 0)) hlp rfl (by simp) (by simp)

/-- C4 (amended): when the prior is admissible (`lp` finite) and the
likelihood object is truthy, both variants return `lp + ll` with no
coercion whatsoever: a backend `-inf` yields `-inf`, but a backend NaN
yields NaN and a backend `+inf` yields `+inf`, so a non-finite backend
value reaches the sampler unchanged. -/
theorem C4_backend_value_propagates_uncoerced {D L D2 L2 : Type}
    (self : PIDInterface) (engS : StochEngine D L) (engD : DetEngine D2 L2)
    (model : ModelState) (params_values : List ℝ) (data : List (List ℝ))
    (timepoints : List ℝ) (measurements : List String)
    (initial_conditions : List (List ℝ)) (norm_order N_simulations : Nat)
    (x : ℝ) (llS : L) (llD : L2)
    (hlp : self.check_prior (self.params_to_estimate.zip params_values) =
      .ok (.fin x))
    (hS : engS.construct model initial_conditions
        (engS.package timepoints data measurements data.length) N_simulations
        norm_order = .ok (some llS))
    (hD : engD.construct model initial_conditions
        (engD.package timepoints data measurements data.length) norm_order =
      .ok (some llD)) :
    (StochasticInference.get_likelihood_function self engS model params_values
        data timepoints measurements initial_conditions norm_order
        N_simulations).result =
      .ok (some (pyAdd (.fin x) (engS.log_lik llS
        (set_init_params model (self.params_to_estimate.zip params_values))))) ∧
    (DeterministicInference.get_likelihood_function self engD model
        params_values data timepoints measurements initial_conditions
        norm_order).result =
      .ok (some (pyAdd (.fin x) (engD.log_lik llD
        (set_init_params model (self.params_to_estimate.zip params_values))))) ∧
    pyAdd (.fin x) .ninf = .ninf ∧ pyAdd (.fin x) .nan = .nan ∧
    pyAdd (.fin x) .pinf = .pinf := by
  refine ⟨?_, ?_, rfl, rfl, rfl⟩ <;>
    simp [StochasticInference.get_likelihood_function,
      DeterministicInference.get_likelihood_function, PyVal.isfinite,
      hlp, hS, hD]

/-- Witness for C4 (amended): concrete calls with an admissible proposal and
a backend likelihood of `-3.2` return `0.0 + (-3.2)` on both variants. -/
theorem C4_backend_value_propagates_uncoerced_witness :
    (StochasticInference.get_likelihood_function ifaceU exStochEngine []
        [0.5, 0.5] [[1]] [0] ["X"] [[1]] 2 3).result =
      .ok (some (pyAdd (.fin (0 + 0 + 0)) (.fin (-3.2)))) ∧
    (DeterministicInference.get_likelihood_function ifaceU exDetEngine []
        [0.5, 0.5] [[1]] [0] ["X"] [[1]] 2).result =
      .ok (some (pyAdd (.fin (0 + 0 + 0)) (.fin (-3.2)))) := by
  have hlp : PIDInterface.check_prior ifaceU
      (ifaceU.params_to_estimate.zip [0.5, 0.5]) = .ok (.fin (0 + 0 + 0)) := by
    simp [PIDInterface.check_prior, PIDInterface.check_prior_loop,
      PIDInterface.prior_contrib, PIDInterface.uniform_prior, ifaceU,
      uniPrior01, List.lookup]
    norm_num
  have h := C4_backend_value_propagates_uncoerced ifaceU exStochEngine
    exDetEngine [] [0.5, 0.5] [[1]] [0] ["X"] [[1]] 2 3 (0 + 0 + 0) () ()
    hlp (by simp [exStochEngine, stochEngineSpec])
    (by simp [exDetEngine, detEngineSpec])
  exact ⟨h.1, h.2.1⟩

/-- C4 counterexample: with an admissible prior and a backend whose
`py_log_likelihood` is NaN, the stochastic call returns NaN, not `-inf`:
the source adds the backend value to `lp` without any coercion, so NaN
reaches the sampler. -/
theorem C4_nan_reaches_sampler_cx :
    (StochasticInference.get_likelihood_function ifaceU
        (stochEngineSpec (fun _ => .nan)) [] [0.5, 0.5] [[1]] [0] ["X"]
        [[1]] 2 3).result = .ok (some .nan) ∧
    (Except.ok (some PyVal.nan) : Except PyError (Option PyVal)) ≠
      .ok (some .ninf) := by
  constructor
  · simp [StochasticInference.get_likelihood_function, stochEngineSpec,
      PIDInterface.check_prior, PIDInterface.check_prior_loop,
      PIDInterface.prior_contrib, PIDInterface.uniform_prior, ifaceU,
      uniPrior01, List.lookup, PyVal.isfinite]
    norm_num
  · simp

/-- A stochastic engine whose likelihood constructor always yields a falsy
object (Python bool false), as permitted by the opaque `STLL` contract. -/
def falsyStochEngine : StochEngine Nat Unit where
  package := fun _ _ _ N => N
  construct := fun _ _ _ _ _ => .ok none
  log_lik := fun _ _ => .fin 0

/-- A deterministic engine whose likelihood constructor always yields a
falsy object. -/
def falsyDetEngine : DetEngine Nat Unit where
  package := fun _ _ _ N => N
  construct := fun _ _ _ _ => .ok none
  log_lik := fun _ _ => .fin 0

/-- C5 (amended): when the constructed likelihood object is falsy, both
variants fall through the `if LL:` guard and silently return Python `None`
— an absent result, not an exception and not a score — leaving the model
untouched. -/
theorem C5_falsy_construction_silent_none {D L D2 L2 : Type}
    (self : PIDInterface) (engS : StochEngine D L) (engD : DetEngine D2 L2)
    (model : ModelState) (params_values : List ℝ) (data : List (List ℝ))
    (timepoints : List ℝ) (measurements : List String)
    (initial_conditions : List (List ℝ)) (norm_order N_simulations : Nat)
    (x : ℝ)
    (hlp : self.check_prior (self.params_to_estimate.zip params_values) =
      .ok (.fin x))
    (hS : engS.construct model initial_conditions
        (engS.package timepoints data measurements data.length) N_simulations
        norm_order = .ok none)
    (hD : engD.construct model initial_conditions
        (engD.package timepoints data measurements data.length) norm_order =
      .ok none) :
    StochasticInference.get_likelihood_function self engS model params_values
        data timepoints measurements initial_conditions norm_order
        N_simulations =
      ⟨.ok none, [.packagedData, .constructedLL], model, self⟩ ∧
    DeterministicInference.get_likelihood_function self engD model
        params_values data timepoints measurements initial_conditions
        norm_order =
      ⟨.ok none, [.packagedData, .constructedLL], model, self⟩ := by
  constructor <;>
    simp [StochasticInference.get_likelihood_function,
      DeterministicInference.get_likelihood_function, PyVal.isfinite,
      hlp, hS, hD]

/-- Witness for C5 (amended): concrete calls against the falsy-constructor
engines return `None` on both variants. -/
theorem C5_falsy_construction_silent_none_witness :
    StochasticInference.get_likelihood_function ifaceU falsyStochEngine []
        [0.5, 0.5] [[1]] [0] ["X"] [[1]] 2 3 =
      ⟨.ok none, [.packagedData, .constructedLL], [], ifaceU⟩ ∧
    DeterministicInference.get_likelihood_function ifaceU falsyDetEngine []
        [0.5, 0.5] [[1]] [0] ["X"] [[1]] 2 =
      ⟨.ok none, [.packagedData, .constructedLL], [], ifaceU⟩ := by
  have hlp : PIDInterface.check_prior ifaceU
      (ifaceU.params_to_estimate.zip [0.5, 0.5]) = .ok (.fin (0 + 0 + 0)) := by
    simp [PIDInterface.check_prior, PIDInterface.check_prior_loop,
      PIDInterface.prior_contrib, PIDInterface.uniform_prior, ifaceU,
      uniPrior01, List.lookup]
    norm_num
  exact C5_falsy_construction_silent_none ifaceU falsyStochEngine
    falsyDetEngine [] [0.5, 0.5] [[1]] [0] ["X"] [[1]] 2 3 (0 + 0 + 0) hlp
    rfl rfl

/-- C5 counterexample: with an admissible prior and a falsy likelihood
object the stochastic call returns the absent result `None` and raises
nothing, contradicting the claim that construction failure is surfaced as
an explicit error. -/
theorem C5_falsy_returns_none_cx :
    (StochasticInference.get_likelihood_function ifaceU falsyStochEngine []
        [0.5, 0.5] [[1]] [0] ["X"] [[1]] 2 3).result = .ok none ∧
    ∀ e, (StochasticInference.get_likelihood_function ifaceU falsyStochEngine
        [] [0.5, 0.5] [[1]] [0] ["X"] [[1]] 2 3).result ≠ .error e := by
  have h : (StochasticInference.get_likelihood_function ifaceU
      falsyStochEngine [] [0.5, 0.5] [[1]] [0] ["X"] [[1]] 2 3).result =
      .ok none := by
    simp [StochasticInference.get_likelihood_function, falsyStochEngine,
      PIDInterface.check_prior, PIDInterface.check_prior_loop,
      PIDInterface.prior_contrib, PIDInterface.uniform_prior, ifaceU,
      uniPrior01, List.lookup, PyVal.isfinite]
    norm_num
  exact ⟨h, fun e => by rw [h]; simp⟩

/-- Python `zip` truncates to the shorter sequence: zipping against the
values truncated to the names' length changes nothing. -/
lemma zip_take_length (l1 : List String) (l2 : List ℝ) :
    l1.zip (l2.take l1.length) = l1.zip l2 := by
  induction l1 generalizing l2 with
  | nil => simp
  | cons a l1 ih =>
    cases l2 with
    | nil => simp
    | cons b l2 => simp [ih]

/-- C6 (amended): no length check is performed anywhere: the call depends on
`params_values` only through `zip`, which silently pairs the shorter prefix,
so surplus values are ignored and no error of any kind is raised for a
length mismatch. -/
theorem C6_zip_truncates_silently {D L D2 L2 : Type}
    (self : PIDInterface) (engS : StochEngine D L) (engD : DetEngine D2 L2)
    (model : ModelState) (params_values : List ℝ) (data : List (List ℝ))
    (timepoints : List ℝ) (measurements : List String)
    (initial_conditions : List (List ℝ)) (norm_order N_simulations : Nat) :
    StochasticInference.get_likelihood_function self engS model params_values
        data timepoints measurements initial_conditions norm_order
        N_simulations =
      StochasticInference.get_likelihood_function self engS model
        (params_values.take self.params_to_estimate.length) data timepoints
        measurements initial_conditions norm_order N_simulations ∧
    DeterministicInference.get_likelihood_function self engD model
        params_values data timepoints measurements initial_conditions
        norm_order =
      DeterministicInference.get_likelihood_function self engD model
        (params_values.take self.params_to_estimate.length) data timepoints
        measurements initial_conditions norm_order := by
  constructor
  · unfold StochasticInference.get_likelihood_function
    rw [zip_take_length]
  · unfold DeterministicInference.get_likelihood_function
    rw [zip_take_length]

/-- C6 counterexample: two names but one value: the call silently pairs the
prefix `k1 = 0.5`, proceeds, and returns a score; no error (in particular
no configuration error) is raised for the length mismatch. -/
theorem C6_length_mismatch_no_error_cx :
    ifaceU.params_to_estimate.length ≠ ([0.5] : List ℝ).length ∧
    ifaceU.params_to_estimate.zip ([0.5] : List ℝ) = [("k1", 0.5)] ∧
    (StochasticInference.get_likelihood_function ifaceU exStochEngine []
        [0.5] [[1]] [0] ["X"] [[1]] 2 3).result =
      .ok (some (.fin (0 + 0 + -3.2))) ∧
    ∀ e, (StochasticInference.get_likelihood_function ifaceU exStochEngine []
        [0.5] [[1]] [0] ["X"] [[1]] 2 3).result ≠ .error e := by
  have h : (StochasticInference.get_likelihood_function ifaceU exStochEngine
      [] [0.5] [[1]] [0] ["X"] [[1]] 2 3).result =
      .ok (some (.fin (0 + 0 + -3.2))) := by
    simp [StochasticInference.get_likelihood_function, exStochEngine,
      stochEngineSpec, PIDInterface.check_prior, PIDInterface.check_prior_loop,
      PIDInterface.prior_contrib, PIDInterface.uniform_prior, ifaceU,
      uniPrior01, List.lookup, PyVal.isfinite]
    norm_num
  refine ⟨by simp [ifaceU], by simp [ifaceU], h, fun e => by rw [h]; simp⟩

/-- C9: on either variant and on every control path, a scoring call leaves
the interface configuration (`params_to_estimate` and `prior`, stored at
construction) exactly as it was, and the only external mutation it can
perform is binding the named parameters onto the Model: the final model
state is either untouched or exactly `set_init_params` of the zipped
named-parameter mapping. -/
theorem C9_scoring_call_frame {D L D2 L2 : Type}
    (self : PIDInterface) (engS : StochEngine D L) (engD : DetEngine D2 L2)
    (model : ModelState) (params_values : List ℝ) (data : List (List ℝ))
    (timepoints : List ℝ) (measurements : List String)
    (initial_conditions : List (List ℝ)) (norm_order N_simulations : Nat) :
    ((StochasticInference.get_likelihood_function self engS model
        params_values data timepoints measurements initial_conditions
        norm_order N_simulations).iface = self ∧
      ((StochasticInference.get_likelihood_function self engS model
          params_values data timepoints measurements initial_conditions
          norm_order N_simulations).model = model ∨
        (StochasticInference.get_likelihood_function self engS model
          params_values data timepoints measurements initial_conditions
          norm_order N_simulations).model =
          set_init_params model
            (self.params_to_estimate.zip params_values))) ∧
    ((DeterministicInference.get_likelihood_function self engD model
        params_values data timepoints measurements initial_conditions
        norm_order).iface = self ∧
      ((DeterministicInference.get_likelihood_function self engD model
          params_values data timepoints measurements initial_conditions
          norm_order).model = model ∨
        (DeterministicInference.get_likelihood_function self engD model
          params_values data timepoints measurements initial_conditions
          norm_order).model =
          set_init_params model
            (self.params_to_estimate.zip params_values))) := by
  constructor
  · cases hcp : self.check_prior (self.params_to_estimate.zip params_values) with
    | error e =>
      simp [StochasticInference.get_likelihood_function, hcp]
    | ok lp =>
      cases hfin : lp.isfinite with
      | false => simp [StochasticInference.get_likelihood_function, hcp, hfin]
      | true =>
        cases hc : engS.construct model initial_conditions
            (engS.package timepoints data measurements data.length)
            N_simulations norm_order with
        | error e =>
          simp [StochasticInference.get_likelihood_function, hcp, hfin, hc]
        | ok o =>
          cases o with
          | none =>
            simp [StochasticInference.get_likelihood_function, hcp, hfin, hc]
          | some ll =>
            simp [StochasticInference.get_likelihood_function, hcp, hfin, hc]
  · cases hcp : self.check_prior (self.params_to_estimate.zip params_values) with
    | error e =>
      simp [DeterministicInference.get_likelihood_function, hcp]
    | ok lp =>
      cases hfin : lp.isfinite with
      | false => simp [DeterministicInference.get_likelihood_function, hcp, hfin]
      | true =>
        cases hc : engD.construct model initial_conditions
            (engD.package timepoints data measurements data.length)
            norm_order with
        | error e =>
          simp [DeterministicInference.get_likelihood_function, hcp, hfin, hc]
        | ok o =>
          cases o with
          | none =>
            simp [DeterministicInference.get_likelihood_function, hcp, hfin, hc]
          | some ll =>
            simp [DeterministicInference.get_likelihood_function, hcp, hfin, hc]

/-- Witness for C6 (amended): with three values against two names the call
coincides with the call on the two-value prefix. -/
theorem C6_zip_truncates_silently_witness :
    StochasticInference.get_likelihood_function ifaceU exStochEngine []
        [0.5, 2, 7] [[1]] [0] ["X"] [[1]] 2 3 =
      StochasticInference.get_likelihood_function ifaceU exStochEngine []
        ([0.5, 2, 7].take ifaceU.params_to_estimate.length) [[1]] [0] ["X"]
        [[1]] 2 3 ∧
    DeterministicInference.get_likelihood_function ifaceU exDetEngine []
        [0.5, 2, 7] [[1]] [0] ["X"] [[1]] 2 =
      DeterministicInference.get_likelihood_function ifaceU exDetEngine []
        ([0.5, 2, 7].take ifaceU.params_to_estimate.length) [[1]] [0] ["X"]
        [[1]] 2 :=
  C6_zip_truncates_silently ifaceU exStochEngine exDetEngine [] [0.5, 2, 7]
    [[1]] [0] ["X"] [[1]] 2 3

/-- Witness for C9: a concrete scoring call on each variant leaves the
interface configuration untouched. -/
theorem C9_scoring_call_frame_witness :
    (StochasticInference.get_likelihood_function ifaceU exStochEngine
        [("a", 1)] [0.5, 0.5] [[1]] [0] ["X"] [[1]] 2 3).iface = ifaceU ∧
    (DeterministicInference.get_likelihood_function ifaceU exDetEngine
        [("a", 1)] [0.5, 0.5] [[1]] [0] ["X"] [[1]] 2).iface = ifaceU :=
  ⟨(C9_scoring_call_frame ifaceU exStochEngine exDetEngine [("a", 1)]
      [0.5, 0.5] [[1]] [0] ["X"] [[1]] 2 3).1.1,
    (C9_scoring_call_frame ifaceU exStochEngine exDetEngine [("a", 1)]
      [0.5, 0.5] [[1]] [0] ["X"] [[1]] 2 3).2.1⟩
